import Mathlib

/-
  Verification development for the LG TV remote tray application.

  The definitions below are a shallow embedding of the Rust sources:
    - src/tray/src-tauri/src/tv.rs          (TvConnection and the wake mechanisms)
    - src/lgtv-tray-remote/src-tauri/src/main.rs  (the command entry points)

  Socket I/O is made explicit: every operation takes an environment value
  describing the outcomes of the I/O it performs (write results, the frames
  that arrive on a channel together with their arrival time in seconds, and
  whether the peer closed the stream), and returns the Rust result, the
  updated connection state, and the list of channel effects it performed.
-/

/-- Model of serde_json::Value. A text frame that fails to decode is
represented at the environment level (see SockEvent), so no string parser
is needed here. -/
inductive Json where
  | null
  | bool (b : Bool)
  | num (n : Int)
  | str (s : String)
  | arr (xs : List Json)
  | obj (fields : List (String × Json))
deriving Repr, Inhabited

/-- Indexing data[k] on a serde_json::Value: returns the field of an object,
and null for a missing field or a non-object. -/
def Json.get (j : Json) (k : String) : Json :=
  match j with
  | .obj fs =>
    match fs.find? (fun p => p.1 == k) with
    | some p => p.2
    | none => .null
  | _ => .null

/-- Value::as_str. -/
def Json.asStr : Json → Option String
  | .str s => some s
  | _ => none

/-- Comparison data[k] == "lit" of a Value against a string literal
(PartialEq of Value with str): true exactly for an equal string value. -/
def Json.isStr (j : Json) (s : String) : Bool :=
  match j with
  | .str t => t == s
  | _ => false

/-- Index-assignment j[k] = v on an object: overwrite the field if present,
append it otherwise (non-objects are left unchanged; the source only ever
assigns into objects). -/
def Json.setField (j : Json) (k : String) (v : Json) : Json :=
  match j with
  | .obj fs =>
    if fs.any (fun p => p.1 == k) then
      .obj (fs.map (fun p => if p.1 == k then (k, v) else p))
    else
      .obj (fs ++ [(k, v)])
  | _ => j

/-- CommandResult from tv.rs. -/
structure CommandResult where
  success : Bool
  message : Option String := none
  error : Option String := none
  client_key : Option String := none
  mac : Option String := none
  payload : Option Json := none
deriving Repr

def CommandResult.ok : CommandResult :=
  { success := true }

def CommandResult.ok_with_message (msg : String) : CommandResult :=
  { success := true, message := some msg }

/-- The TvConnection state from tv.rs. The two websocket channels hold no
data relevant to the session logic, so a present channel is modelled as
some (). msg_id is a u32 in the source; arithmetic on it is done modulo
2^32 below. -/
structure TvConnection where
  ws : Option Unit
  input_ws : Option Unit
  msg_id : Nat
  connected : Bool
  ip : String
  name : String
  use_ssl : Bool
deriving Repr, DecidableEq

/-- u32 modulus for the msg_id counter. -/
def u32Mod : Nat := 4294967296

/-- TvConnection::new(). -/
def TvConnection.new : TvConnection :=
  { ws := none, input_ws := none, msg_id := 0, connected := false
    ip := "", name := "", use_ssl := true }

/-- One incoming event on a websocket channel, tagged with its arrival time
in whole seconds since the read loop started. A text frame carries the
result of serde_json::from_str on it: some j when it decodes to j, none
when it does not decode. closed is ws.next() returning None. -/
inductive SockEvent where
  | text (decoded : Option Json)
  | nonText
  | ioError (e : String)
  | closed
deriving Repr

/-- A channel effect performed by an operation: a write on the command
channel (with the envelope written), entering a read phase on the command
channel, a write on the input channel (with the raw frame), opening a
websocket, or a best-effort close. -/
inductive Effect where
  | cmdWrite (msg : Json)
  | cmdRead
  | inputWrite (frame : String)
  | wsOpen (uri : String)
  | chanClose
deriving Repr

/-- Result of one operation: the Rust Result value, the state the
TvConnection fields were left in, and the channel effects performed. -/
structure Op (α : Type) where
  res : Except String α
  st : TvConnection
  trace : List Effect

/-- Outcome of the read loop in send_command: the first text frame that
decodes as JSON, an I/O failure inside the loop (a websocket error or the
stream closing), or the response timeout elapsing first. -/
inductive ReadResult where
  | ok (j : Json)
  | fail (e : String)
  | timeout
deriving Repr

/-- The read loop of send_command under a timeout of bound seconds: scan
the incoming events in order; an event arriving at or after the bound is
never seen because the timeout fires first; a decodable text frame is
returned as-is; non-decodable text and non-text frames are skipped; a
websocket error or stream close aborts the loop; when the events run out
the timeout fires. -/
def readLoop (bound : Nat) : List (Nat × SockEvent) → ReadResult
  | [] => .timeout
  | (t, e) :: rest =>
    if bound ≤ t then .timeout
    else
      match e with
      | .text (some j) => .ok j
      | .text none => readLoop bound rest
      | .nonText => readLoop bound rest
      | .ioError msg => .fail ("WebSocket error: " ++ msg)
      | .closed => .fail "Connection closed"

/-- I/O environment of one send_command call: the outcome of the envelope
write (none = success) and the timed events subsequently delivered on the
command channel. -/
structure SendEnv where
  writeError : Option String
  frames : List (Nat × SockEvent)

/-- The per-command response timeout of send_command, in seconds. -/
def commandTimeoutSecs : Nat := 3

/-- TvConnection::send_command. Fails fast with "Not connected" when the
command channel is absent; otherwise allocates the next request id
(u32 increment), writes the request envelope, and runs the read loop under
the 3 second response timeout. Any write failure, read failure or timeout
sets connected to false. -/
def TvConnection.send_command (self : TvConnection) (uri : String)
    (payload : Option Json) (env : SendEnv) : Op Json :=
  match self.ws with
  | none => ⟨.error "Not connected", self, []⟩
  | some _ =>
    let newId := (self.msg_id + 1) % u32Mod
    let self := { self with msg_id := newId }
    let msg := Json.obj
      [("type", .str "request"),
       ("id", .str ("cmd_" ++ toString newId)),
       ("uri", .str uri),
       ("payload", payload.getD (.obj []))]
    match env.writeError with
    | some e =>
      ⟨.error ("Send failed (disconnected): " ++ e),
       { self with connected := false }, [.cmdWrite msg]⟩
    | none =>
      match readLoop commandTimeoutSecs env.frames with
      | .ok data => ⟨.ok data, self, [.cmdWrite msg, .cmdRead]⟩
      | .fail e =>
        ⟨.error e, { self with connected := false }, [.cmdWrite msg, .cmdRead]⟩
      | .timeout =>
        ⟨.error "Command timeout (disconnected)",
         { self with connected := false }, [.cmdWrite msg, .cmdRead]⟩


/-- The fixed permission list embedded in the registration manifest. -/
def handshakePermissions : List Json :=
  ["LAUNCH", "LAUNCH_WEBAPP", "APP_TO_APP", "CLOSE",
   "TEST_OPEN", "TEST_PROTECTED", "CONTROL_AUDIO",
   "CONTROL_DISPLAY", "CONTROL_INPUT_JOYSTICK",
   "CONTROL_INPUT_MEDIA_RECORDING",
   "CONTROL_INPUT_MEDIA_PLAYBACK", "CONTROL_INPUT_TV",
   "CONTROL_POWER", "READ_APP_STATUS", "READ_CURRENT_CHANNEL",
   "READ_INPUT_DEVICE_LIST", "READ_NETWORK_STATE",
   "READ_RUNNING_APPS", "READ_TV_CHANNEL_LIST",
   "WRITE_NOTIFICATION_TOAST", "READ_POWER_STATE",
   "READ_COUNTRY_INFO", "CONTROL_MOUSE_AND_KEYBOARD",
   "CONTROL_INPUT_TEXT"].map Json.str

/-- The inner payload object of the registration envelope, before the
optional client-key is inserted. -/
def handshakeInnerPayload : Json :=
  Json.obj
    [("forcePairing", .bool false),
     ("pairingType", .str "PROMPT"),
     ("manifest", Json.obj
       [("manifestVersion", .num 1),
        ("appVersion", .str "1.1"),
        ("signed", Json.obj
          [("created", .str "20140509"),
           ("appId", .str "com.lge.test"),
           ("vendorId", .str "com.lge"),
           ("localizedAppNames", Json.obj [("", .str "LG Remote")]),
           ("localizedVendorNames", Json.obj [("", .str "LG Electronics")]),
           ("permissions", .arr handshakePermissions),
           ("serial", .str "2f930e2d2cfe083771f68e4fe7bb07")]),
        ("permissions", .arr handshakePermissions),
        ("signatures", .arr
          [Json.obj
            [("signatureVersion", .num 1),
             ("signature", .str "eyJhbGdvcml0aG0iOiJSU0EtU0hBMjU2Iiwia2V5SWQiOiJ0ZXN0LXNpZ25pbmctY2VydCIsInNpZ25hdHVyZVZlcnNpb24iOjF9.hrVRgjCwXVvE2OOSpDZ58hR+59aFNwYDyjQgKk3auukd7pcegmE2CzPCa0bJ0ZsRAcKkCTJrWo5iDzNhMBWRyaMOv5zWSrthlf7G128qvIlpMT0YNY+n/FaOHE73uLrS/g7swl3/qH/BGFG2Hu4RlL48eb3lLKqTt2xKHdCs6Cd4RMfJPYnzgvI4BNrFUKsjkcu+WD4OO2A27Pq1n50cMchmcaXadJhGrOqH5YmHdOCj5NSHzJYrsW0HPlpuAx/ECMeIZYDh6RMqaFM2DXzdKX9NmmyqzJ3o/0lkk/N97gfVRLW5hA29yeAwaCViZNCP8iC9aO0q9fQojoa7NQnAtw==")]])])]

/-- TvConnection::handshake_payload: the registration envelope, with the
client-key inserted into the payload when one is supplied. -/
def handshake_payload (client_key : Option String) : Json :=
  let base := Json.obj
    [("type", .str "register"),
     ("id", .str "register_0"),
     ("payload", handshakeInnerPayload)]
  match client_key with
  | none => base
  | some key =>
    base.setField "payload" (handshakeInnerPayload.setField "client-key" (.str key))

/-- Outcome of the registration wait loop of connect: the loop finished
within the bound (with the device answer or an I/O error), or the
registration timeout elapsed first. -/
inductive RegOutcome where
  | done (r : Except String (Option String))
  | timedOut
deriving Repr

/-- The registration wait loop of connect under a timeout of bound
seconds: scan the incoming events in order; an event arriving at or after
the bound is never seen. A decodable frame of type registered yields the
(possibly absent) client-key from its payload; a frame of type error
yields a registration rejection; every other decodable frame (such as a
pairing prompt notification), a non-decodable text frame and a non-text
frame are skipped. -/
def regWait (bound : Nat) : List (Nat × SockEvent) → RegOutcome
  | [] => .timedOut
  | (t, e) :: rest =>
    if bound ≤ t then .timedOut
    else
      match e with
      | .text (some data) =>
        if (data.get "type").isStr "registered" then
          .done (.ok (((data.get "payload").get "client-key").asStr))
        else if (data.get "type").isStr "error" then
          .done (.error ("Registration error: "
            ++ (((data.get "error").asStr).getD "Unknown")))
        else
          regWait bound rest
      | .text none => regWait bound rest
      | .nonText => regWait bound rest
      | .ioError msg => .done (.error ("WebSocket error: " ++ msg))
      | .closed => .done (.error "Connection closed")

/-- The registration wait bound of connect, in seconds: short when a
client key was supplied (no human interaction expected), long otherwise
(the user must confirm the pairing prompt on the TV). -/
def regBound (client_key : Option String) : Nat :=
  if client_key.isSome then 5 else 60

/-- Outcome of opening the command channel inside its 5 second connect
timeout: the timeout elapsed, connect_ws failed with an error, or the
channel is open. -/
inductive ConnWsOutcome where
  | timeout
  | failed (e : String)
  | opened
deriving Repr, DecidableEq

/-- I/O environment of one connect_input_socket call: the environment of
the getPointerInputSocket command, and the outcome of opening the returned
socket path as a websocket. -/
structure InputConnEnv where
  send : SendEnv
  wsOutcome : Except String Unit

/-- I/O environment of one connect call. -/
structure ConnectEnv where
  connectWs : ConnWsOutcome
  handshakeSendError : Option String
  regEvents : List (Nat × SockEvent)
  inputEnv : InputConnEnv

/-- TvConnection::disconnect: set connected to false and drop (with a
best-effort close) whichever channels are present. Always succeeds. -/
def TvConnection.disconnect (self : TvConnection) : TvConnection × List Effect :=
  let tr1 :=
    match self.input_ws with
    | some _ => [Effect.chanClose]
    | none => []
  let tr2 :=
    match self.ws with
    | some _ => [Effect.chanClose]
    | none => []
  ({ self with connected := false, input_ws := none, ws := none }, tr1 ++ tr2)

/-- TvConnection::connect_input_socket: ask the command channel for the
pointer input socket path, then open it as the input channel. -/
def TvConnection.connect_input_socket (self : TvConnection)
    (env : InputConnEnv) : Op Unit :=
  let r := self.send_command
    "ssap://com.webos.service.networkinput/getPointerInputSocket" none env.send
  match r.res with
  | .error e => ⟨.error e, r.st, r.trace⟩
  | .ok response =>
    match ((response.get "payload").get "socketPath").asStr with
    | none => ⟨.error "No socket path in response", r.st, r.trace⟩
    | some socket_path =>
      match env.wsOutcome with
      | .error e => ⟨.error e, r.st, r.trace⟩
      | .ok _ =>
        ⟨.ok (), { r.st with input_ws := some () },
         r.trace ++ [.wsOpen socket_path]⟩

/-- TvConnection::refresh_input_socket: close and drop the input channel
if present, then reconnect it. -/
def TvConnection.refresh_input_socket (self : TvConnection)
    (env : InputConnEnv) : Op Unit :=
  let tr1 :=
    match self.input_ws with
    | some _ => [Effect.chanClose]
    | none => []
  let r := ({ self with input_ws := none }).connect_input_socket env
  ⟨r.res, r.st, tr1 ++ r.trace⟩

/-- The body of TvConnection::connect after the initial teardown and
identity assignment: open the command channel under the 5 second connect
timeout, send the registration envelope, wait for the registration answer
under regBound, and on success mark the session connected and attempt to
open the input channel (an input channel failure is logged, not fatal). -/
def connectRest (self : TvConnection) (client_key : Option String)
    (env : ConnectEnv) : Op CommandResult :=
  let uri := (if self.use_ssl then "wss" else "ws") ++ "://" ++ self.ip ++ ":"
    ++ toString (if self.use_ssl then (3001 : Nat) else 3000)
  match env.connectWs with
  | .timeout => ⟨.error "Connection timeout", self, []⟩
  | .failed e => ⟨.error e, self, []⟩
  | .opened =>
    let self := { self with ws := some () }
    let tr := [Effect.wsOpen uri, Effect.cmdWrite (handshake_payload client_key)]
    match env.handshakeSendError with
    | some e => ⟨.error ("Failed to send handshake: " ++ e), self, tr⟩
    | none =>
      match regWait (regBound client_key) env.regEvents with
      | .timedOut =>
        ⟨.error "Registration timeout - check TV for pairing prompt",
         self, tr ++ [.cmdRead]⟩
      | .done (.error e) => ⟨.error e, self, tr ++ [.cmdRead]⟩
      | .done (.ok new_key) =>
        let self := { self with connected := true }
        let ri := self.connect_input_socket env.inputEnv
        ⟨.ok { CommandResult.ok_with_message "Connected" with client_key := new_key },
         ri.st, tr ++ [.cmdRead] ++ ri.trace⟩

/-- TvConnection::connect: tear the existing session down first, record
the new identity, then run the connection attempt (connectRest). -/
def TvConnection.connect (self : TvConnection) (name ip : String)
    (client_key : Option String) (use_ssl : Bool) (env : ConnectEnv) :
    Op CommandResult :=
  let torn := self.disconnect
  let r := connectRest
    { torn.1 with name := name, ip := ip, use_ssl := use_ssl } client_key env
  ⟨r.res, r.st, torn.2 ++ r.trace⟩

/-- I/O environment of one send_button call: the environment used for the
lazy input-channel reconnect (only consulted when the input channel is
absent) and the outcome of the button frame write. -/
structure ButtonEnv where
  inputConn : InputConnEnv
  writeError : Option String

/-- The body of TvConnection::send_button after its reconnect-if-needed
block: require the input channel, write the three-line button frame; a
write failure drops the input channel and marks the session disconnected.
tr0 carries the effects of the preceding reconnect. -/
def sendButtonWrite (self : TvConnection) (button : String) (env : ButtonEnv)
    (tr0 : List Effect) : Op CommandResult :=
  match self.input_ws with
  | none => ⟨.error "Input socket not available", self, tr0⟩
  | some _ =>
    let cmd := "type:button\nname:" ++ button.toUpper ++ "\n\n"
    match env.writeError with
    | some e =>
      ⟨.error ("Button send failed (disconnected): " ++ e),
       { self with input_ws := none, connected := false },
       tr0 ++ [.inputWrite cmd]⟩
    | none => ⟨.ok CommandResult.ok, self, tr0 ++ [.inputWrite cmd]⟩

/-- TvConnection::send_button: lazily reconnect the input channel if it is
absent (a reconnect failure marks the session disconnected), then write
the button frame (sendButtonWrite). -/
def TvConnection.send_button (self : TvConnection) (button : String)
    (env : ButtonEnv) : Op CommandResult :=
  match self.input_ws with
  | some _ => sendButtonWrite self button env []
  | none =>
    let r := self.connect_input_socket env.inputConn
    match r.res with
    | .error e =>
      ⟨.error ("Failed to connect input socket: " ++ e),
       { r.st with connected := false }, r.trace⟩
    | .ok _ => sendButtonWrite r.st button env r.trace

/-- TvConnection::volume_up. -/
def TvConnection.volume_up (self : TvConnection) (env : SendEnv) :
    Op CommandResult :=
  let r := self.send_command "ssap://audio/volumeUp" none env
  match r.res with
  | .error e => ⟨.error e, r.st, r.trace⟩
  | .ok _ => ⟨.ok CommandResult.ok, r.st, r.trace⟩

/-- TvConnection::volume_down. -/
def TvConnection.volume_down (self : TvConnection) (env : SendEnv) :
    Op CommandResult :=
  let r := self.send_command "ssap://audio/volumeDown" none env
  match r.res with
  | .error e => ⟨.error e, r.st, r.trace⟩
  | .ok _ => ⟨.ok CommandResult.ok, r.st, r.trace⟩

/-- TvConnection::set_mute. -/
def TvConnection.set_mute (self : TvConnection) (mute : Bool) (env : SendEnv) :
    Op CommandResult :=
  let r := self.send_command "ssap://audio/setMute"
    (some (Json.obj [("mute", .bool mute)])) env
  match r.res with
  | .error e => ⟨.error e, r.st, r.trace⟩
  | .ok _ => ⟨.ok CommandResult.ok, r.st, r.trace⟩

/-- TvConnection::power_off: send the turnOff command; on success the
session is unconditionally marked disconnected (the channels are left in
place). -/
def TvConnection.power_off (self : TvConnection) (env : SendEnv) :
    Op CommandResult :=
  let r := self.send_command "ssap://system/turnOff" none env
  match r.res with
  | .error e => ⟨.error e, r.st, r.trace⟩
  | .ok _ =>
    ⟨.ok (CommandResult.ok_with_message "TV powered off"),
     { r.st with connected := false }, r.trace⟩

/-- TvConnection::keepalive_ping: a getinfo request whose failure is the
signal that the connection died. -/
def TvConnection.keepalive_ping (self : TvConnection) (env : SendEnv) :
    Op Unit :=
  let r := self.send_command
    "ssap://com.webos.service.connectionmanager/getinfo" none env
  match r.res with
  | .error e => ⟨.error e, r.st, r.trace⟩
  | .ok _ => ⟨.ok (), r.st, r.trace⟩

/-- Value of char::to_digit(16): some for the ASCII hex digits (digits
48..57, lowercase 97..102, uppercase 65..70), none for every other
character. -/
def hexDigit? (c : Char) : Option Nat :=
  if 48 ≤ c.toNat ∧ c.toNat ≤ 57 then some (c.toNat - 48)
  else if 97 ≤ c.toNat ∧ c.toNat ≤ 102 then some (c.toNat - 97 + 10)
  else if 65 ≤ c.toNat ∧ c.toNat ≤ 70 then some (c.toNat - 65 + 10)
  else none

/-- One digit step of u8::from_str_radix: checked multiply of the
accumulator by the radix, then checked add (or checked subtract for a
negative parse, which for an unsigned type only succeeds while the value
stays zero). -/
def radixStep (isNeg : Bool) (acc : Option Nat) (c : Char) : Option Nat :=
  match acc, hexDigit? c with
  | some a, some d =>
    let m := a * 16
    if 255 < m then none
    else if isNeg then (if d ≤ m then some (m - d) else none)
    else (if m + d ≤ 255 then some (m + d) else none)
  | _, _ => none

/-- Model of u8::from_str_radix(s, 16) as used by the hex module of tv.rs:
an optional leading plus or minus sign, then at least one hex digit,
accumulated with u8 overflow checks. -/
def fromStrRadix16u8 (cs : List Char) : Option Nat :=
  let isNeg : Bool :=
    match cs with
    | c :: _ => c == '-'
    | [] => false
  let digits : List Char :=
    match cs with
    | c :: rest => if c == '+' || c == '-' then rest else cs
    | [] => cs
  if digits.isEmpty then none
  else digits.foldl (radixStep isNeg) (some 0)

/-- Number of UTF-8 bytes of a character, as Rust's char::len_utf8
computes it from the code point: 1 up to 0x7F (127), 2 up to 0x7FF
(2047), 3 up to 0xFFFF (65535), 4 beyond. -/
def lenUtf8 (c : Char) : Nat :=
  if c.toNat ≤ 127 then 1
  else if c.toNat ≤ 2047 then 2
  else if c.toNat ≤ 65535 then 3
  else 4

/-- Byte length of a string, as Rust's str::len computes it (the sum of
the UTF-8 sizes of its characters). -/
def strByteLen (cs : List Char) : Nat :=
  (cs.map lenUtf8).sum

/-- Outcome of hex::decode: the parsed bytes, the Err of the format
error, or a panic of the byte-range slice &s[i..i+2] (raised when the
upper index falls outside the string or inside a multibyte character). -/
inductive DecodeOutcome where
  | ok (bytes : List Nat)
  | formatErr
  | panicked
deriving Repr, DecidableEq

/-- The group loop of hex::decode from tv.rs, walking the string two
BYTES at a time (the Rust loop index is a byte index into the UTF-8
data). Each iteration slices &s[i..i+2] and parses the slice with
u8::from_str_radix; the collect over Result short-circuits at the first
failing group, so later groups are never sliced. At every iteration the
index sits on a character boundary (the previous slice ended there), so
the 2-byte group is one of: a single 2-byte character (a valid slice
whose parse always fails, such a character being neither an ASCII sign
nor a hex digit), two 1-byte characters (parsed as a 2-character slice),
or a slice-boundary violation: a 1-byte character followed by a
multibyte one, a leading character of 3 or more bytes, or a single
trailing byte - and then the slice panics. -/
def hexDecodePairs : List Char → DecodeOutcome
  | [] => .ok []
  | [c] =>
    if lenUtf8 c = 2 then .formatErr
    else .panicked
  | c :: d :: rest2 =>
    if lenUtf8 c = 2 then .formatErr
    else if lenUtf8 c = 1 then
      if lenUtf8 d = 1 then
        match fromStrRadix16u8 [c, d] with
        | none => .formatErr
        | some v =>
          match hexDecodePairs rest2 with
          | .ok vs => .ok (v :: vs)
          | .formatErr => .formatErr
          | .panicked => .panicked
      else .panicked
    else .panicked

/-- hex::decode from tv.rs: reject an odd BYTE length, then walk 2-byte
groups. -/
def hexDecode (cs : List Char) : DecodeOutcome :=
  if strByteLen cs % 2 ≠ 0 then .formatErr else hexDecodePairs cs

/-- The characters of the MAC string after mac.replace of the separator
characters colon and dash with the empty string. -/
def macCleanChars (mac : String) : List Char :=
  mac.toList.filter (fun c => ¬ (c = ':' ∨ c = '-'))

/-- Modelled from the spec: the wake_on_lan crate's MagicPacket layout is
not part of this repository's sources, and the spec fixes it as the
standard 102-byte packet of 6 bytes of 0xFF followed by 16 verbatim
repetitions of the 6 address bytes. -/
def magicPacket (mac_bytes : List Nat) : List Nat :=
  List.replicate 6 255 ++ (List.replicate 16 mac_bytes).flatten

/-- A datagram sent by the wake path: the primary MagicPacket::send
broadcast, or a MagicPacket::send_to to an explicit address. -/
inductive WolSend where
  | broadcast (packet : List Nat)
  | to (packet : List Nat) (addr : String)
deriving Repr

/-- I/O environment of wake_on_lan: the outcome of the primary broadcast
send (failures of the optional secondary sends are logged and swallowed,
so they need no outcome here). -/
structure WolEnv where
  primarySendError : Option String

/-- How a wake_on_lan call ends: a returned Rust Result, or a panic
propagated from the string slice inside hex::decode. -/
inductive WolOutcome where
  | ret (r : Except String CommandResult)
  | panicked
deriving Repr

/-- wake_on_lan from tv.rs: strip colon and dash separators, hex-decode
the remainder, require exactly 6 bytes, build the magic packet and
broadcast it; when a non-empty broadcast ip is supplied additionally send
the same packet to that address on ports 9 and 7 (those failures are
swallowed). Returns how the call ends and the datagrams sent. -/
def wake_on_lan (mac : String) (broadcast_ip : Option String) (env : WolEnv) :
    WolOutcome × List WolSend :=
  let mac_clean := macCleanChars mac
  match hexDecode mac_clean with
  | .panicked => (.panicked, [])
  | .formatErr => (.ret (.error "Invalid MAC address"), [])
  | .ok mac_bytes =>
    if mac_bytes.length = 6 then
      let packet := magicPacket mac_bytes
      match env.primarySendError with
      | some e => (.ret (.error ("WoL send failed: " ++ e)), [.broadcast packet])
      | none =>
        let secondary :=
          match broadcast_ip with
          | none => []
          | some ip =>
            let ip := ip.trim
            if ip = "" then []
            else [WolSend.to packet (ip ++ ":9"), WolSend.to packet (ip ++ ":7")]
        (.ret (.ok (CommandResult.ok_with_message "Wake-on-LAN packet sent")),
         .broadcast packet :: secondary)
    else (.ret (.error "Invalid MAC address length"), [])

/-
  The command entry points of main.rs. Each guarded tauri command checks
  tv.connected before touching the TvConnection; the global-shortcut
  dispatcher run_action_impl calls the TvConnection operations directly.
-/

namespace Main

/-- The get_status tauri command: reports tv.connected (the isConnected
observer of the spec). -/
def get_status (tv : TvConnection) : Bool :=
  tv.connected

/-- The send_button tauri command. -/
def send_button (tv : TvConnection) (button : String) (env : ButtonEnv) :
    Op CommandResult :=
  if tv.connected then tv.send_button button env
  else ⟨.error "Not connected", tv, []⟩

/-- The volume_up tauri command. -/
def volume_up (tv : TvConnection) (env : SendEnv) : Op CommandResult :=
  if tv.connected then tv.volume_up env
  else ⟨.error "Not connected", tv, []⟩

/-- The volume_down tauri command. -/
def volume_down (tv : TvConnection) (env : SendEnv) : Op CommandResult :=
  if tv.connected then tv.volume_down env
  else ⟨.error "Not connected", tv, []⟩

/-- The set_mute tauri command. -/
def set_mute (tv : TvConnection) (mute : Bool) (env : SendEnv) : Op CommandResult :=
  if tv.connected then tv.set_mute mute env
  else ⟨.error "Not connected", tv, []⟩

/-- The power_off tauri command. -/
def power_off (tv : TvConnection) (env : SendEnv) : Op CommandResult :=
  if tv.connected then tv.power_off env
  else ⟨.error "Not connected", tv, []⟩

/-- Forgetting the success value, as the .map of run_action_impl does. -/
def opUnit {α : Type} (r : Op α) : Op Unit :=
  ⟨r.res.map (fun _ => ()), r.st, r.trace⟩

/-- I/O environment of one run_action_impl call. The wake outcome stands
for the config-and-wake path of the power_on and wake_streaming_device
actions, which drops the TvConnection lock first and performs no session
channel I/O. -/
structure ActionEnv where
  button : ButtonEnv
  send : SendEnv
  wake : Except String Unit

/-- run_action_impl from main.rs: dispatch an action id to the
TvConnection operation, with no connected check. Unknown ids succeed
silently. -/
def run_action_impl (tv : TvConnection) (action_id : String) (env : ActionEnv) :
    Op Unit :=
  match action_id with
  | "up" => opUnit (tv.send_button "UP" env.button)
  | "down" => opUnit (tv.send_button "DOWN" env.button)
  | "left" => opUnit (tv.send_button "LEFT" env.button)
  | "right" => opUnit (tv.send_button "RIGHT" env.button)
  | "enter" => opUnit (tv.send_button "ENTER" env.button)
  | "back" => opUnit (tv.send_button "BACK" env.button)
  | "volume_up" => opUnit (tv.volume_up env.send)
  | "volume_down" => opUnit (tv.volume_down env.send)
  | "mute" => opUnit (tv.set_mute true env.send)
  | "unmute" => opUnit (tv.set_mute false env.send)
  | "power_off" => opUnit (tv.power_off env.send)
  | "home" => opUnit (tv.send_button "HOME" env.button)
  | "power_on" => ⟨env.wake, tv, []⟩
  | "wake_streaming_device" => ⟨env.wake, tv, []⟩
  | _ => ⟨.ok (), tv, []⟩

end Main

/-
  Reachability: every way the session state can move, one constructor per
  public TvConnection operation, each with arbitrary arguments and
  arbitrary I/O outcomes.
-/

/-- One public operation applied to the session, with arbitrary arguments
and I/O environment. -/
inductive Step : TvConnection → TvConnection → Prop where
  | connect (st : TvConnection) (name ip : String) (key : Option String)
      (ssl : Bool) (env : ConnectEnv) :
      Step st (st.connect name ip key ssl env).st
  | disconnect (st : TvConnection) : Step st st.disconnect.1
  | send_command (st : TvConnection) (uri : String) (payload : Option Json)
      (env : SendEnv) : Step st (st.send_command uri payload env).st
  | send_button (st : TvConnection) (b : String) (env : ButtonEnv) :
      Step st (st.send_button b env).st
  | refresh_input_socket (st : TvConnection) (env : InputConnEnv) :
      Step st (st.refresh_input_socket env).st
  | volume_up (st : TvConnection) (env : SendEnv) : Step st (st.volume_up env).st
  | volume_down (st : TvConnection) (env : SendEnv) : Step st (st.volume_down env).st
  | set_mute (st : TvConnection) (m : Bool) (env : SendEnv) :
      Step st (st.set_mute m env).st
  | power_off (st : TvConnection) (env : SendEnv) : Step st (st.power_off env).st
  | keepalive_ping (st : TvConnection) (env : SendEnv) :
      Step st (st.keepalive_ping env).st

/-- The session states reachable from the freshly created TvConnection by
any sequence of public operations. -/
inductive Reachable : TvConnection → Prop where
  | init : Reachable TvConnection.new
  | step {st st' : TvConnection} : Reachable st → Step st st' → Reachable st'

/-
  Concrete fixtures: a device that answers every request promptly and
  correctly, and the session states reached through it.
-/

/-- A registration answer of type registered carrying a client-key. -/
def regOkJson : Json :=
  Json.obj
    [("type", .str "registered"),
     ("payload", Json.obj [("client-key", .str "abc123")])]

/-- A response carrying a pointer input socket path (also used as a
generic well-formed command response). -/
def socketPathJson : Json :=
  Json.obj [("payload", Json.obj [("socketPath", .str "wss://input")])]

/-- A command-channel environment where the write succeeds and a decodable
response arrives immediately. -/
def goodSendEnv : SendEnv :=
  ⟨none, [(0, .text (some socketPathJson))]⟩

/-- An input-socket environment where everything succeeds. -/
def goodInputEnv : InputConnEnv :=
  ⟨goodSendEnv, .ok ()⟩

/-- A button environment where everything succeeds. -/
def goodButtonEnv : ButtonEnv :=
  ⟨goodInputEnv, none⟩

/-- A connect environment where the channel opens, the handshake is sent,
and the device registers immediately. -/
def goodConnectEnv : ConnectEnv :=
  ⟨.opened, none, [(0, .text (some regOkJson))], goodInputEnv⟩

/-- The session after a fully successful connect from the fresh state. -/
def connectedBase : TvConnection :=
  (TvConnection.new.connect "living-room" "10.0.0.5" none true goodConnectEnv).st

/-- The session after a successful power_off from connectedBase. -/
def afterPowerOff : TvConnection :=
  (connectedBase.power_off goodSendEnv).st

/-- The request envelope send_command writes for a given allocated id. -/
def requestEnvelope (id : Nat) (uri : String) (payload : Option Json) : Json :=
  Json.obj
    [("type", .str "request"),
     ("id", .str ("cmd_" ++ toString id)),
     ("uri", .str uri),
     ("payload", payload.getD (.obj []))]

/-- The session after n further successful send_command calls from
connectedBase. -/
def pump : Nat → TvConnection
  | 0 => connectedBase
  | n + 1 => ((pump n).send_command "ssap://audio/volumeUp" none goodSendEnv).st

/-
  Sanity evaluations of the fixtures.
-/

theorem connectedBase_eval : connectedBase =
    { ws := some (), input_ws := some (), msg_id := 1, connected := true
      ip := "10.0.0.5", name := "living-room", use_ssl := true } := rfl

theorem afterPowerOff_eval : afterPowerOff =
    { ws := some (), input_ws := some (), msg_id := 2, connected := false
      ip := "10.0.0.5", name := "living-room", use_ssl := true } := rfl

/-
  Helper lemmas about send_command and connect_input_socket.
-/

theorem send_command_closed {self : TvConnection} {uri : String}
    {payload : Option Json} {env : SendEnv} (h : self.ws = none) :
    self.send_command uri payload env = ⟨.error "Not connected", self, []⟩ := by
  unfold TvConnection.send_command
  rw [h]

/-- The state after send_command is the caller's state, the caller's state
with the request id allocated, or that with connected cleared. -/
theorem sc_shape (self : TvConnection) (uri : String) (payload : Option Json)
    (env : SendEnv) :
    (self.send_command uri payload env).st = self
    ∨ (self.send_command uri payload env).st
        = { self with msg_id := (self.msg_id + 1) % u32Mod }
    ∨ (self.send_command uri payload env).st
        = { self with msg_id := (self.msg_id + 1) % u32Mod, connected := false } := by
  obtain ⟨ws, iws, mid, conn, ip, nm, ssl⟩ := self
  obtain ⟨we, fr⟩ := env
  simp only [TvConnection.send_command]
  cases ws
  · exact Or.inl rfl
  · cases we
    · cases readLoop commandTimeoutSecs fr
      · exact Or.inr (Or.inl rfl)
      · exact Or.inr (Or.inr rfl)
      · exact Or.inr (Or.inr rfl)
    · exact Or.inr (Or.inr rfl)

theorem send_command_ws (self : TvConnection) (uri : String)
    (payload : Option Json) (env : SendEnv) :
    (self.send_command uri payload env).st.ws = self.ws := by
  rcases sc_shape self uri payload env with h | h | h <;> rw [h]

theorem send_command_input (self : TvConnection) (uri : String)
    (payload : Option Json) (env : SendEnv) :
    (self.send_command uri payload env).st.input_ws = self.input_ws := by
  rcases sc_shape self uri payload env with h | h | h <;> rw [h]

theorem send_command_connected_cases (self : TvConnection) (uri : String)
    (payload : Option Json) (env : SendEnv) :
    (self.send_command uri payload env).st.connected = self.connected
    ∨ (self.send_command uri payload env).st.connected = false := by
  rcases sc_shape self uri payload env with h | h | h <;> rw [h]
  · exact Or.inl rfl
  · exact Or.inl rfl
  · exact Or.inr rfl

theorem send_command_msg {self : TvConnection} (uri : String)
    (payload : Option Json) (env : SendEnv) (h : self.ws = some ()) :
    (self.send_command uri payload env).st.msg_id = (self.msg_id + 1) % u32Mod := by
  obtain ⟨ws, iws, mid, conn, ip, nm, ssl⟩ := self
  obtain ⟨we, fr⟩ := env
  simp only [TvConnection.send_command]
  cases ws
  · exact absurd h (by simp)
  · cases we
    · cases readLoop commandTimeoutSecs fr <;> rfl
    · rfl

theorem send_command_msg_cases (self : TvConnection) (uri : String)
    (payload : Option Json) (env : SendEnv) :
    (self.send_command uri payload env).st.msg_id = self.msg_id
    ∨ (self.send_command uri payload env).st.msg_id = (self.msg_id + 1) % u32Mod := by
  rcases sc_shape self uri payload env with h | h | h <;> rw [h]
  · exact Or.inl rfl
  · exact Or.inr rfl
  · exact Or.inr rfl

theorem send_command_ok_connected {self : TvConnection} {uri : String}
    {payload : Option Json} {env : SendEnv} {j : Json}
    (h : (self.send_command uri payload env).res = .ok j) :
    (self.send_command uri payload env).st.connected = self.connected := by
  obtain ⟨ws, iws, mid, conn, ip, nm, ssl⟩ := self
  obtain ⟨we, fr⟩ := env
  cases ws
  · simp [TvConnection.send_command] at h
  · cases we
    · cases hr : readLoop commandTimeoutSecs fr <;>
        simp [TvConnection.send_command, hr] at h ⊢
    · simp [TvConnection.send_command] at h

theorem send_command_err_connected {self : TvConnection} {uri : String}
    {payload : Option Json} {env : SendEnv} {e : String}
    (hws : self.ws = some ())
    (h : (self.send_command uri payload env).res = .error e) :
    (self.send_command uri payload env).st.connected = false := by
  obtain ⟨ws, iws, mid, conn, ip, nm, ssl⟩ := self
  obtain ⟨we, fr⟩ := env
  subst hws
  cases we
  · cases hr : readLoop commandTimeoutSecs fr <;>
      simp [TvConnection.send_command, hr] at h ⊢
  · rfl

/-- The state after connect_input_socket is the state after its inner
send_command, possibly with the input channel attached. -/
theorem cis_shape (self : TvConnection) (env : InputConnEnv) :
    (self.connect_input_socket env).st
      = (self.send_command
          "ssap://com.webos.service.networkinput/getPointerInputSocket"
          none env.send).st
    ∨ (self.connect_input_socket env).st
      = { (self.send_command
          "ssap://com.webos.service.networkinput/getPointerInputSocket"
          none env.send).st with input_ws := some () } := by
  simp only [TvConnection.connect_input_socket]
  split
  · exact Or.inl rfl
  · split
    · exact Or.inl rfl
    · split
      · exact Or.inl rfl
      · exact Or.inr rfl

theorem cis_ws (self : TvConnection) (env : InputConnEnv) :
    (self.connect_input_socket env).st.ws = self.ws := by
  rcases cis_shape self env with h | h <;> rw [h] <;>
    exact send_command_ws self _ none env.send

theorem cis_connected_cases (self : TvConnection) (env : InputConnEnv) :
    (self.connect_input_socket env).st.connected = self.connected
    ∨ (self.connect_input_socket env).st.connected = false := by
  rcases cis_shape self env with h | h <;> rw [h] <;>
    exact send_command_connected_cases self _ none env.send

theorem cis_msg_cases (self : TvConnection) (env : InputConnEnv) :
    (self.connect_input_socket env).st.msg_id = self.msg_id
    ∨ (self.connect_input_socket env).st.msg_id = (self.msg_id + 1) % u32Mod := by
  rcases cis_shape self env with h | h <;> rw [h] <;>
    exact send_command_msg_cases self _ none env.send

/-
  Helper lemmas about the remaining operations.
-/

theorem disc_st (self : TvConnection) :
    self.disconnect.1 = { self with connected := false, input_ws := none, ws := none } :=
  rfl

theorem sbw_ws (self : TvConnection) (b : String) (env : ButtonEnv)
    (tr0 : List Effect) : (sendButtonWrite self b env tr0).st.ws = self.ws := by
  simp only [sendButtonWrite]
  split
  · rfl
  · split <;> rfl

theorem sbw_connected_cases (self : TvConnection) (b : String) (env : ButtonEnv)
    (tr0 : List Effect) :
    (sendButtonWrite self b env tr0).st.connected = self.connected
    ∨ (sendButtonWrite self b env tr0).st.connected = false := by
  simp only [sendButtonWrite]
  split
  · exact Or.inl rfl
  · split
    · exact Or.inr rfl
    · exact Or.inl rfl

theorem sbw_msg (self : TvConnection) (b : String) (env : ButtonEnv)
    (tr0 : List Effect) : (sendButtonWrite self b env tr0).st.msg_id = self.msg_id := by
  simp only [sendButtonWrite]
  split
  · rfl
  · split <;> rfl

theorem sb_ws (self : TvConnection) (b : String) (env : ButtonEnv) :
    (self.send_button b env).st.ws = self.ws := by
  simp only [TvConnection.send_button]
  split
  · rw [sbw_ws]
  · split
    · exact cis_ws self env.inputConn
    · rw [sbw_ws]
      exact cis_ws self env.inputConn

theorem sb_connected_cases (self : TvConnection) (b : String) (env : ButtonEnv) :
    (self.send_button b env).st.connected = self.connected
    ∨ (self.send_button b env).st.connected = false := by
  simp only [TvConnection.send_button]
  split
  · exact sbw_connected_cases self b env []
  · split
    · exact Or.inr rfl
    · rcases sbw_connected_cases (self.connect_input_socket env.inputConn).st b env
        (self.connect_input_socket env.inputConn).trace with h | h
      · rw [h]
        exact cis_connected_cases self env.inputConn
      · exact Or.inr h

theorem sb_msg_cases (self : TvConnection) (b : String) (env : ButtonEnv) :
    (self.send_button b env).st.msg_id = self.msg_id
    ∨ (self.send_button b env).st.msg_id = (self.msg_id + 1) % u32Mod := by
  simp only [TvConnection.send_button]
  split
  · rw [sbw_msg]
    exact Or.inl rfl
  · split
    · exact cis_msg_cases self env.inputConn
    · rw [sbw_msg]
      exact cis_msg_cases self env.inputConn

theorem ris_ws (self : TvConnection) (env : InputConnEnv) :
    (self.refresh_input_socket env).st.ws = self.ws := by
  simp only [TvConnection.refresh_input_socket]
  exact cis_ws { self with input_ws := none } env

theorem ris_connected_cases (self : TvConnection) (env : InputConnEnv) :
    (self.refresh_input_socket env).st.connected = self.connected
    ∨ (self.refresh_input_socket env).st.connected = false := by
  simp only [TvConnection.refresh_input_socket]
  exact cis_connected_cases { self with input_ws := none } env

theorem ris_msg_cases (self : TvConnection) (env : InputConnEnv) :
    (self.refresh_input_socket env).st.msg_id = self.msg_id
    ∨ (self.refresh_input_socket env).st.msg_id = (self.msg_id + 1) % u32Mod := by
  simp only [TvConnection.refresh_input_socket]
  exact cis_msg_cases { self with input_ws := none } env

theorem vu_st (self : TvConnection) (env : SendEnv) :
    (self.volume_up env).st = (self.send_command "ssap://audio/volumeUp" none env).st := by
  simp only [TvConnection.volume_up]
  split <;> rfl

theorem vd_st (self : TvConnection) (env : SendEnv) :
    (self.volume_down env).st
      = (self.send_command "ssap://audio/volumeDown" none env).st := by
  simp only [TvConnection.volume_down]
  split <;> rfl

theorem sm_st (self : TvConnection) (m : Bool) (env : SendEnv) :
    (self.set_mute m env).st
      = (self.send_command "ssap://audio/setMute"
          (some (Json.obj [("mute", .bool m)])) env).st := by
  simp only [TvConnection.set_mute]
  split <;> rfl

theorem ka_st (self : TvConnection) (env : SendEnv) :
    (self.keepalive_ping env).st
      = (self.send_command "ssap://com.webos.service.connectionmanager/getinfo"
          none env).st := by
  simp only [TvConnection.keepalive_ping]
  split <;> rfl

theorem po_shape (self : TvConnection) (env : SendEnv) :
    (self.power_off env).st = (self.send_command "ssap://system/turnOff" none env).st
    ∨ (self.power_off env).st
      = { (self.send_command "ssap://system/turnOff" none env).st with connected := false } := by
  simp only [TvConnection.power_off]
  split
  · exact Or.inl rfl
  · exact Or.inr rfl

theorem cr_P {self : TvConnection} {k : Option String} {env : ConnectEnv}
    (hconn : self.connected = false) :
    (connectRest self k env).st.connected = true
    → (connectRest self k env).st.ws = some () := by
  simp only [connectRest]
  split
  · intro hc
    rw [hconn] at hc
    cases hc
  · intro hc
    rw [hconn] at hc
    cases hc
  · split
    · intro _
      rfl
    · split
      · intro _
        rfl
      · intro _
        rfl
      · intro _
        have := cis_ws { self with ws := some (), connected := true } env.inputEnv
        rw [this]

theorem cr_err_connected {self : TvConnection} {k : Option String}
    {env : ConnectEnv} {e : String}
    (h : (connectRest self k env).res = .error e) :
    (connectRest self k env).st.connected = self.connected := by
  simp only [connectRest] at h ⊢
  split at h
  · rfl
  · rfl
  · split at h
    · rfl
    · split at h
      · rfl
      · rfl
      · cases h

theorem cr_msg_cases (self : TvConnection) (k : Option String) (env : ConnectEnv) :
    (connectRest self k env).st.msg_id = self.msg_id
    ∨ (connectRest self k env).st.msg_id = (self.msg_id + 1) % u32Mod := by
  simp only [connectRest]
  split
  · exact Or.inl rfl
  · exact Or.inl rfl
  · split
    · exact Or.inl rfl
    · split
      · exact Or.inl rfl
      · exact Or.inl rfl
      · exact cis_msg_cases { self with ws := some (), connected := true } env.inputEnv

theorem conn_st (self : TvConnection) (name ip : String) (k : Option String)
    (ssl : Bool) (env : ConnectEnv) :
    (self.connect name ip k ssl env).st
      = (connectRest
          { self with
            connected := false, input_ws := none, ws := none,
            name := name, ip := ip, use_ssl := ssl } k env).st :=
  rfl

theorem conn_P (self : TvConnection) (name ip : String) (k : Option String)
    (ssl : Bool) (env : ConnectEnv) :
    (self.connect name ip k ssl env).st.connected = true
    → (self.connect name ip k ssl env).st.ws = some () := by
  rw [conn_st]
  exact cr_P rfl

theorem conn_err_connected {self : TvConnection} {name ip : String}
    {k : Option String} {ssl : Bool} {env : ConnectEnv} {e : String}
    (h : (self.connect name ip k ssl env).res = .error e) :
    (self.connect name ip k ssl env).st.connected = false := by
  rw [conn_st]
  exact cr_err_connected h

theorem conn_msg_cases (self : TvConnection) (name ip : String)
    (k : Option String) (ssl : Bool) (env : ConnectEnv) :
    (self.connect name ip k ssl env).st.msg_id = self.msg_id
    ∨ (self.connect name ip k ssl env).st.msg_id = (self.msg_id + 1) % u32Mod := by
  rw [conn_st]
  exact cr_msg_cases _ k env

/-
  Preservation of the session invariant and of the request-id discipline
  across every public operation.
-/

theorem P_of_pres {st st' : TvConnection}
    (hws : st'.ws = st.ws)
    (hconn : st'.connected = st.connected ∨ st'.connected = false)
    (hP : st.connected = true → st.ws = some ()) :
    st'.connected = true → st'.ws = some () := by
  intro hc
  rcases hconn with h | h
  · rw [hws]
    exact hP (h ▸ hc)
  · rw [h] at hc
    cases hc

theorem step_P {st st' : TvConnection} (h : Step st st')
    (hP : st.connected = true → st.ws = some ()) :
    st'.connected = true → st'.ws = some () := by
  cases h with
  | connect name ip key ssl env => exact conn_P st name ip key ssl env
  | disconnect =>
    intro hc
    rw [disc_st] at hc
    cases hc
  | send_command uri payload env =>
    exact P_of_pres (send_command_ws st uri payload env)
      (send_command_connected_cases st uri payload env) hP
  | send_button b env =>
    exact P_of_pres (sb_ws st b env) (sb_connected_cases st b env) hP
  | refresh_input_socket env =>
    exact P_of_pres (ris_ws st env) (ris_connected_cases st env) hP
  | volume_up env =>
    exact P_of_pres ((vu_st st env) ▸ send_command_ws st _ none env)
      ((vu_st st env) ▸ send_command_connected_cases st _ none env) hP
  | volume_down env =>
    exact P_of_pres ((vd_st st env) ▸ send_command_ws st _ none env)
      ((vd_st st env) ▸ send_command_connected_cases st _ none env) hP
  | set_mute m env =>
    exact P_of_pres ((sm_st st m env) ▸ send_command_ws st _ _ env)
      ((sm_st st m env) ▸ send_command_connected_cases st _ _ env) hP
  | power_off env =>
    rcases po_shape st env with hs | hs <;> rw [hs]
    · exact P_of_pres (send_command_ws st _ none env)
        (send_command_connected_cases st _ none env) hP
    · intro hc
      cases hc
  | keepalive_ping env =>
    exact P_of_pres ((ka_st st env) ▸ send_command_ws st _ none env)
      ((ka_st st env) ▸ send_command_connected_cases st _ none env) hP

theorem step_msg {st st' : TvConnection} (h : Step st st') :
    st'.msg_id = st.msg_id ∨ st'.msg_id = (st.msg_id + 1) % u32Mod := by
  cases h with
  | connect name ip key ssl env => exact conn_msg_cases st name ip key ssl env
  | disconnect => exact Or.inl rfl
  | send_command uri payload env => exact send_command_msg_cases st uri payload env
  | send_button b env => exact sb_msg_cases st b env
  | refresh_input_socket env => exact ris_msg_cases st env
  | volume_up env => exact (vu_st st env) ▸ send_command_msg_cases st _ none env
  | volume_down env => exact (vd_st st env) ▸ send_command_msg_cases st _ none env
  | set_mute m env => exact (sm_st st m env) ▸ send_command_msg_cases st _ _ env
  | power_off env =>
    rcases po_shape st env with hs | hs <;> rw [hs]
    · exact send_command_msg_cases st _ none env
    · exact send_command_msg_cases st _ none env
  | keepalive_ping env => exact (ka_st st env) ▸ send_command_msg_cases st _ none env

/-- connectedBase is reachable: one successful connect from the fresh
session. -/
theorem reachable_connectedBase : Reachable connectedBase :=
  Reachable.step Reachable.init
    (Step.connect TvConnection.new "living-room" "10.0.0.5" none true goodConnectEnv)

/-- afterPowerOff is reachable: a successful power_off from connectedBase. -/
theorem reachable_afterPowerOff : Reachable afterPowerOff :=
  Reachable.step reachable_connectedBase (Step.power_off connectedBase goodSendEnv)

/-- C1 (amended): in every reachable session state, connected=true implies
the command channel is present. (The converse of the claim fails: see the
counterexample.) -/
theorem c1_connected_implies_command_channel (st : TvConnection)
    (h : Reachable st) : st.connected = true → st.ws = some () := by
  induction h with
  | init => exact fun hc => absurd hc (by decide)
  | step _ hs ih => exact step_P hs ih

/-- C1 witness: the state after a successful connect is reachable and
connected, and the theorem yields its command channel. -/
theorem c1_witness :
    Reachable connectedBase ∧ connectedBase.connected = true
    ∧ connectedBase.ws = some () :=
  ⟨reachable_connectedBase, rfl,
   c1_connected_implies_command_channel connectedBase reachable_connectedBase rfl⟩

/-- C1 counterexample: after a successful power_off the session is
reachable with connected=false while both channels are still present, so a
reachable state can be neither fully disconnected nor fully connected in
the sense of the claim. -/
theorem c1_counterexample :
    Reachable afterPowerOff ∧ afterPowerOff.connected = false
    ∧ afterPowerOff.ws = some () ∧ afterPowerOff.input_ws = some () :=
  ⟨reachable_afterPowerOff, rfl, rfl, rfl⟩

/-- C10: disconnect returns no error (it produces no Result value at all),
unconditionally leaves connected=false with both channel references
absent, and disconnecting again from that state leaves the state unchanged
and performs no further channel effects. -/
theorem c10_disconnect_unconditional_idempotent (st : TvConnection) :
    st.disconnect.1.connected = false
    ∧ st.disconnect.1.ws = none
    ∧ st.disconnect.1.input_ws = none
    ∧ st.disconnect.1.disconnect.1 = st.disconnect.1
    ∧ st.disconnect.1.disconnect.2 = [] :=
  ⟨rfl, rfl, rfl, rfl, rfl⟩

/-- C9: connect invoked in any state first tears the session down: its
result and final state depend on the prior state only through the
request-id counter, never through the previous channels or connected flag;
and every failing connect leaves the session with connected=false. -/
theorem c9_connect_teardown_first :
    (∀ (st1 st2 : TvConnection) (name ip : String) (k : Option String)
      (ssl : Bool) (env : ConnectEnv), st1.msg_id = st2.msg_id →
      (st1.connect name ip k ssl env).res = (st2.connect name ip k ssl env).res
      ∧ (st1.connect name ip k ssl env).st = (st2.connect name ip k ssl env).st)
    ∧ (∀ (st : TvConnection) (name ip : String) (k : Option String)
      (ssl : Bool) (env : ConnectEnv) (e : String),
      (st.connect name ip k ssl env).res = .error e →
      (st.connect name ip k ssl env).st.connected = false) := by
  constructor
  · intro st1 st2 name ip k ssl env hmsg
    have hrec : ({ st1 with
        connected := false, input_ws := none, ws := none,
        name := name, ip := ip, use_ssl := ssl } : TvConnection)
        = { st2 with
        connected := false, input_ws := none, ws := none,
        name := name, ip := ip, use_ssl := ssl } := by
      obtain ⟨w1, i1, m1, c1, p1, n1, s1⟩ := st1
      obtain ⟨w2, i2, m2, c2, p2, n2, s2⟩ := st2
      simp only at hmsg
      subst hmsg
      rfl
    exact ⟨congrArg (fun x => (connectRest x k env).res) hrec,
           congrArg (fun x => (connectRest x k env).st) hrec⟩
  · intro st name ip k ssl env e h
    exact conn_err_connected h

/-- C9 witness: two states agreeing on the counter (one still holding
channels) give the same connect outcome, and a concrete timed-out connect
leaves the session disconnected. -/
theorem c9_witness :
    afterPowerOff.msg_id = ({ TvConnection.new with msg_id := 2 } : TvConnection).msg_id
    ∧ (afterPowerOff.connect "n" "10.0.0.9" none false ⟨.timeout, none, [], goodInputEnv⟩).res
      = (({ TvConnection.new with msg_id := 2 } : TvConnection).connect
          "n" "10.0.0.9" none false ⟨.timeout, none, [], goodInputEnv⟩).res
    ∧ (afterPowerOff.connect "n" "10.0.0.9" none false ⟨.timeout, none, [], goodInputEnv⟩).res
      = .error "Connection timeout"
    ∧ (afterPowerOff.connect "n" "10.0.0.9" none false ⟨.timeout, none, [], goodInputEnv⟩).st.connected
      = false :=
  ⟨rfl,
   (c9_connect_teardown_first.1 afterPowerOff { TvConnection.new with msg_id := 2 }
     "n" "10.0.0.9" none false ⟨.timeout, none, [], goodInputEnv⟩ rfl).1,
   rfl,
   c9_connect_teardown_first.2 afterPowerOff "n" "10.0.0.9" none false
     ⟨.timeout, none, [], goodInputEnv⟩ "Connection timeout" rfl⟩

/-- C4: on an open command channel, a write failure, a read failure
(websocket error or stream close) and the fixed 3 second response timeout
each set connected to false and surface an error, while a successful call
leaves the connected flag exactly as it was. -/
theorem c4_send_command_failure_sticky (st : TvConnection) (uri : String)
    (payload : Option Json) (env : SendEnv) (hws : st.ws = some ()) :
    (∀ e, env.writeError = some e →
      (st.send_command uri payload env).res = .error ("Send failed (disconnected): " ++ e)
      ∧ (st.send_command uri payload env).st.connected = false)
    ∧ (env.writeError = none →
      (∀ e, readLoop commandTimeoutSecs env.frames = .fail e →
        (st.send_command uri payload env).res = .error e
        ∧ (st.send_command uri payload env).st.connected = false)
      ∧ (readLoop commandTimeoutSecs env.frames = .timeout →
        (st.send_command uri payload env).res = .error "Command timeout (disconnected)"
        ∧ (st.send_command uri payload env).st.connected = false)
      ∧ (∀ j, readLoop commandTimeoutSecs env.frames = .ok j →
        (st.send_command uri payload env).res = .ok j
        ∧ (st.send_command uri payload env).st.connected = st.connected))
    ∧ commandTimeoutSecs = 3 := by
  obtain ⟨ws, iws, mid, conn, ip2, nm, ssl⟩ := st
  obtain ⟨we, fr⟩ := env
  simp only at hws
  subst hws
  refine ⟨?_, ?_, rfl⟩
  · intro e he
    simp only at he
    subst he
    exact ⟨rfl, rfl⟩
  · intro hnone
    simp only at hnone
    subst hnone
    refine ⟨?_, ?_, ?_⟩
    · intro e hre
      simp only [TvConnection.send_command, hre]
      constructor <;> trivial
    · intro hre
      simp only [TvConnection.send_command, hre]
      constructor <;> trivial
    · intro j hre
      simp only [TvConnection.send_command, hre]
      constructor <;> trivial

/-- C4 witness: a concrete write failure on the connected session yields
the error and clears the connected flag. -/
theorem c4_witness :
    connectedBase.ws = some ()
    ∧ (connectedBase.send_command "ssap://audio/volumeUp" none
        ⟨some "broken pipe", []⟩).res
      = .error "Send failed (disconnected): broken pipe"
    ∧ (connectedBase.send_command "ssap://audio/volumeUp" none
        ⟨some "broken pipe", []⟩).st.connected = false :=
  ⟨rfl,
   ((c4_send_command_failure_sticky connectedBase "ssap://audio/volumeUp" none
     ⟨some "broken pipe", []⟩ rfl).1 "broken pipe" rfl).1,
   ((c4_send_command_failure_sticky connectedBase "ssap://audio/volumeUp" none
     ⟨some "broken pipe", []⟩ rfl).1 "broken pipe" rfl).2⟩

/-
  Closed-channel behaviour of the wrapper operations, used for the entry
  point claims.
-/

theorem cis_closed {st : TvConnection} (hws : st.ws = none) (env : InputConnEnv) :
    st.connect_input_socket env = ⟨.error "Not connected", st, []⟩ := by
  simp only [TvConnection.connect_input_socket, send_command_closed hws]

theorem vu_closed {st : TvConnection} (hws : st.ws = none) (env : SendEnv) :
    st.volume_up env = ⟨.error "Not connected", st, []⟩ := by
  simp only [TvConnection.volume_up, send_command_closed hws]

theorem vd_closed {st : TvConnection} (hws : st.ws = none) (env : SendEnv) :
    st.volume_down env = ⟨.error "Not connected", st, []⟩ := by
  simp only [TvConnection.volume_down, send_command_closed hws]

theorem sm_closed {st : TvConnection} (hws : st.ws = none) (m : Bool) (env : SendEnv) :
    st.set_mute m env = ⟨.error "Not connected", st, []⟩ := by
  simp only [TvConnection.set_mute, send_command_closed hws]

theorem po_closed {st : TvConnection} (hws : st.ws = none) (env : SendEnv) :
    st.power_off env = ⟨.error "Not connected", st, []⟩ := by
  simp only [TvConnection.power_off, send_command_closed hws]

theorem sb_trace_closed {st : TvConnection} (hws : st.ws = none)
    (hin : st.input_ws = none) (b : String) (env : ButtonEnv) :
    (st.send_button b env).trace = [] := by
  simp only [TvConnection.send_button, hin, cis_closed hws]

/-- C2 (amended): every guarded command entry of main.rs (send_button,
volume_up, volume_down, set_mute, power_off) invoked while connected=false
fails immediately with the error "Not connected", leaves the session
unchanged and performs no channel I/O; and when both channels are actually
absent the unguarded global-shortcut dispatcher run_action_impl also
performs no channel I/O. The claim's universal no-I/O guarantee fails for
run_action_impl itself, which never checks connected: see the
counterexample. -/
theorem c2_guarded_entries_fail_fast :
    (∀ (st : TvConnection) (b : String) (benv : ButtonEnv) (m : Bool)
      (senv : SendEnv), st.connected = false →
      Main.send_button st b benv = ⟨.error "Not connected", st, []⟩
      ∧ Main.volume_up st senv = ⟨.error "Not connected", st, []⟩
      ∧ Main.volume_down st senv = ⟨.error "Not connected", st, []⟩
      ∧ Main.set_mute st m senv = ⟨.error "Not connected", st, []⟩
      ∧ Main.power_off st senv = ⟨.error "Not connected", st, []⟩)
    ∧ (∀ (st : TvConnection) (a : String) (env : Main.ActionEnv),
      st.ws = none → st.input_ws = none →
      (Main.run_action_impl st a env).trace = []) := by
  constructor
  · intro st b benv m senv hc
    refine ⟨?_, ?_, ?_, ?_, ?_⟩ <;>
      simp [Main.send_button, Main.volume_up, Main.volume_down,
        Main.set_mute, Main.power_off, hc]
  · intro st a env hws hin
    simp only [Main.run_action_impl]
    split <;>
      simp [Main.opUnit, sb_trace_closed hws hin, vu_closed hws,
        vd_closed hws, sm_closed hws, po_closed hws]

/-- C2 witness: on the fresh (fully disconnected) session the guarded
volume_up entry fails with "Not connected" performing nothing, and the
unguarded dispatcher performs no channel I/O either. -/
theorem c2_witness :
    TvConnection.new.connected = false
    ∧ Main.volume_up TvConnection.new goodSendEnv
      = ⟨.error "Not connected", TvConnection.new, []⟩
    ∧ (Main.run_action_impl TvConnection.new "up"
        ⟨goodButtonEnv, goodSendEnv, .ok ()⟩).trace = [] :=
  ⟨rfl,
   (c2_guarded_entries_fail_fast.1 TvConnection.new "OK" goodButtonEnv true
     goodSendEnv rfl).2.1,
   c2_guarded_entries_fail_fast.2 TvConnection.new "up"
     ⟨goodButtonEnv, goodSendEnv, .ok ()⟩ rfl rfl⟩

/-- C2 counterexample: in the reachable state after power_off the session
has connected=false but still holds the command channel; the
global-shortcut entry run_action_impl performs no connected check, so a
volume_up through it writes on the channel and succeeds instead of failing
with "not connected". -/
theorem c2_counterexample :
    Reachable afterPowerOff ∧ afterPowerOff.connected = false
    ∧ (Main.run_action_impl afterPowerOff "volume_up"
        ⟨goodButtonEnv, goodSendEnv, .ok ()⟩).res = .ok ()
    ∧ (Main.run_action_impl afterPowerOff "volume_up"
        ⟨goodButtonEnv, goodSendEnv, .ok ()⟩).trace
      = [Effect.cmdWrite (Json.obj
          [("type", .str "request"), ("id", .str "cmd_3"),
           ("uri", .str "ssap://audio/volumeUp"), ("payload", .obj [])]),
         Effect.cmdRead] :=
  ⟨reachable_afterPowerOff, rfl, rfl, rfl⟩

/-- C3 (amended): when only the input channel fails (the command channel
stays present and healthy), the send_button write failure discards the
input channel reference and marks the whole session disconnected, so
isConnected() reports false afterwards; a direct follow-up send_button on
the session transparently reopens the input channel through the command
channel and succeeds. -/
theorem c3_input_failure_marks_disconnected (st : TvConnection) (b : String)
    (env : ButtonEnv) (e : String)
    (hconn : st.connected = true) (hws : st.ws = some ())
    (hin : st.input_ws = some ()) (hwe : env.writeError = some e) :
    (st.send_button b env).res = .error ("Button send failed (disconnected): " ++ e)
    ∧ Main.get_status (st.send_button b env).st = false
    ∧ (st.send_button b env).st.input_ws = none
    ∧ (st.send_button b env).st.ws = st.ws
    ∧ ((st.send_button b env).st.send_button b goodButtonEnv).res = .ok CommandResult.ok
    ∧ ((st.send_button b env).st.send_button b goodButtonEnv).st.input_ws = some () := by
  obtain ⟨ws, iws, mid, conn, ip2, nm, ssl⟩ := st
  obtain ⟨ienv, we⟩ := env
  simp only at hws hin hwe hconn
  subst hws
  subst hin
  subst hwe
  subst hconn
  exact ⟨rfl, rfl, rfl, rfl, rfl, rfl⟩

/-- C3 witness: a concrete input-channel write failure on the connected
session produces the error, reports disconnected, and a direct retry
reopens the input channel and succeeds. -/
theorem c3_witness :
    connectedBase.connected = true ∧ connectedBase.ws = some ()
    ∧ connectedBase.input_ws = some ()
    ∧ (connectedBase.send_button "OK" ⟨goodInputEnv, some "broken pipe"⟩).res
      = .error "Button send failed (disconnected): broken pipe"
    ∧ ((connectedBase.send_button "OK"
        ⟨goodInputEnv, some "broken pipe"⟩).st.send_button "OK" goodButtonEnv).res
      = .ok CommandResult.ok :=
  ⟨rfl, rfl, rfl,
   (c3_input_failure_marks_disconnected connectedBase "OK"
     ⟨goodInputEnv, some "broken pipe"⟩ "broken pipe" rfl rfl rfl rfl).1,
   (c3_input_failure_marks_disconnected connectedBase "OK"
     ⟨goodInputEnv, some "broken pipe"⟩ "broken pipe" rfl rfl rfl rfl).2.2.2.2.1⟩

/-- C3 counterexample: an input-channel-only write failure (the command
channel is present and untouched) leaves isConnected() false, not true as
the claim states. -/
theorem c3_counterexample :
    Reachable connectedBase ∧ connectedBase.connected = true
    ∧ connectedBase.ws = some ()
    ∧ (connectedBase.send_button "OK" ⟨goodInputEnv, some "broken pipe"⟩).st.ws
      = some ()
    ∧ Main.get_status
        (connectedBase.send_button "OK" ⟨goodInputEnv, some "broken pipe"⟩).st
      = false :=
  ⟨reachable_connectedBase, rfl, rfl, rfl, rfl⟩

/-
  Registration wait lemmas for the timing claim.
-/

theorem regWait_timedOut_of {bound : Nat} :
    ∀ {evs : List (Nat × SockEvent)}, (∀ p ∈ evs, bound ≤ p.1) →
      regWait bound evs = .timedOut
  | [], _ => rfl
  | (t, m) :: _, h => by
    have ht : bound ≤ t := h (t, m) (List.mem_cons_self _ _)
    unfold regWait
    rw [if_pos ht]

theorem regWait_registered {bound t : Nat} {j : Json}
    {rest : List (Nat × SockEvent)} (ht : t < bound)
    (hj : (j.get "type").isStr "registered" = true) :
    regWait bound ((t, .text (some j)) :: rest)
      = .done (.ok (((j.get "payload").get "client-key").asStr)) := by
  unfold regWait
  rw [if_neg (Nat.not_le.mpr ht)]
  simp [hj]

/-- C7: the registration wait of connect is bounded by 5 seconds when a
pairing credential was supplied and by 60 seconds otherwise; when every
incoming event arrives at or after that bound, connect fails with the
registration timeout error, which differs from every device-reported
registration rejection; and a registered answer arriving before the bound
makes connect succeed. -/
theorem c7_registration_timeout_bounds :
    (∀ k : String, regBound (some k) = 5)
    ∧ regBound none = 60
    ∧ (∀ (st : TvConnection) (n i : String) (k : Option String) (ssl : Bool)
        (env : ConnectEnv), env.connectWs = .opened →
        env.handshakeSendError = none →
        (∀ p ∈ env.regEvents, regBound k ≤ p.1) →
        (st.connect n i k ssl env).res
          = .error "Registration timeout - check TV for pairing prompt")
    ∧ (∀ reason : String,
        "Registration timeout - check TV for pairing prompt"
          ≠ "Registration error: " ++ reason)
    ∧ (∀ (st : TvConnection) (n i : String) (k : Option String) (ssl : Bool)
        (env : ConnectEnv) (t : Nat) (j : Json) (rest : List (Nat × SockEvent)),
        env.connectWs = .opened → env.handshakeSendError = none →
        env.regEvents = (t, SockEvent.text (some j)) :: rest →
        t < regBound k →
        (j.get "type").isStr "registered" = true →
        (st.connect n i k ssl env).res
          = .ok { CommandResult.ok_with_message "Connected" with
                  client_key := ((j.get "payload").get "client-key").asStr }) := by
  refine ⟨fun k => rfl, rfl, ?_, ?_, ?_⟩
  · intro st n i k ssl env h1 h2 h3
    obtain ⟨cw, hse, re, ie⟩ := env
    simp only at h1 h2 h3
    subst h1
    subst h2
    simp only [TvConnection.connect, connectRest, regWait_timedOut_of h3]
  · intro reason h
    have h2 := congrArg (fun s : String => s.data.take 20) h
    simp only [String.data_append] at h2
    rw [show (20 : Nat) = ("Registration error: ").data.length from rfl,
      List.take_left] at h2
    exact absurd h2 (by decide)
  · intro st n i k ssl env t j rest h1 h2 h3 h4 h5
    obtain ⟨cw, hse, re, ie⟩ := env
    simp only at h1 h2 h3
    subst h1
    subst h2
    subst h3
    simp only [TvConnection.connect, connectRest, regWait_registered h4 h5]

/-- C7 witness: with a supplied credential the bound is 5 seconds and a
device answering at 5 seconds is already too late, while without a
credential a registered answer at 30 seconds still succeeds. -/
theorem c7_witness :
    regBound (some "abc123") = 5
    ∧ (TvConnection.new.connect "tv" "10.0.0.5" (some "abc123") true
        ⟨.opened, none, [(5, .text (some regOkJson))], goodInputEnv⟩).res
      = .error "Registration timeout - check TV for pairing prompt"
    ∧ (TvConnection.new.connect "tv" "10.0.0.5" none true
        ⟨.opened, none, [(30, .text (some regOkJson))], goodInputEnv⟩).res
      = .ok { CommandResult.ok_with_message "Connected" with
              client_key := some "abc123" }
    ∧ "Registration timeout - check TV for pairing prompt"
      ≠ "Registration error: " ++ "rejected pairing" :=
  ⟨c7_registration_timeout_bounds.1 "abc123",
   c7_registration_timeout_bounds.2.2.1 TvConnection.new "tv" "10.0.0.5"
     (some "abc123") true
     ⟨.opened, none, [(5, .text (some regOkJson))], goodInputEnv⟩
     rfl rfl (by decide),
   c7_registration_timeout_bounds.2.2.2.2 TvConnection.new "tv" "10.0.0.5"
     none true ⟨.opened, none, [(30, .text (some regOkJson))], goodInputEnv⟩
     30 regOkJson [] rfl rfl rfl (by decide) (by decide),
   c7_registration_timeout_bounds.2.2.2.1 "rejected pairing"⟩

/-
  Request-id allocation: the envelope written by send_command, and the
  iterated-send construction showing the u32 counter wrap.
-/

theorem pump_ws : ∀ n, (pump n).ws = some ()
  | 0 => rfl
  | n + 1 => by
    rw [pump, send_command_ws]
    exact pump_ws n

theorem pump_msg : ∀ n, (pump n).msg_id = (1 + n) % u32Mod
  | 0 => rfl
  | n + 1 => by
    rw [pump, send_command_msg _ none goodSendEnv (pump_ws n), pump_msg n,
      Nat.mod_add_mod]
    rfl

theorem pump_reachable : ∀ n, Reachable (pump n)
  | 0 => reachable_connectedBase
  | n + 1 =>
    Reachable.step (pump_reachable n)
      (Step.send_command (pump n) "ssap://audio/volumeUp" none goodSendEnv)

/-- C8 (amended): every send_command call on a present command channel
allocates the next request id by a u32 increment (modulo 2^32), writes
exactly the envelope of shape type request, id cmd_<counter>, uri,
payload, and returns the first incoming text frame that decodes as JSON
as-is (no check that the response id matches); non-decodable and non-text
frames are skipped without error; and no operation of the session ever
resets the counter: every step leaves it unchanged or advances it by one
modulo 2^32. The unqualified increments-by-exactly-one and never-reset
wording of the claim fails at the u32 wrap: see the counterexample. -/
theorem c8_send_command_id_allocation :
    (∀ (st : TvConnection) (uri : String) (payload : Option Json) (env : SendEnv),
      st.ws = some () →
      (st.send_command uri payload env).st.msg_id = (st.msg_id + 1) % u32Mod
      ∧ (∀ e, env.writeError = some e →
          (st.send_command uri payload env).trace
            = [Effect.cmdWrite (requestEnvelope ((st.msg_id + 1) % u32Mod) uri payload)])
      ∧ (env.writeError = none →
          (st.send_command uri payload env).trace
            = [Effect.cmdWrite (requestEnvelope ((st.msg_id + 1) % u32Mod) uri payload),
               Effect.cmdRead])
      ∧ (env.writeError = none → ∀ j,
          readLoop commandTimeoutSecs env.frames = .ok j →
          (st.send_command uri payload env).res = .ok j))
    ∧ (∀ (bound t : Nat) (rest : List (Nat × SockEvent)), t < bound →
        readLoop bound ((t, SockEvent.text none) :: rest) = readLoop bound rest
        ∧ readLoop bound ((t, SockEvent.nonText) :: rest) = readLoop bound rest)
    ∧ (∀ st st' : TvConnection, Step st st' →
        st'.msg_id = st.msg_id ∨ st'.msg_id = (st.msg_id + 1) % u32Mod) := by
  refine ⟨?_, ?_, fun st st' h => step_msg h⟩
  · intro st uri payload env hws
    obtain ⟨ws, iws, mid, conn, ip2, nm, ssl⟩ := st
    obtain ⟨we, fr⟩ := env
    simp only at hws
    subst hws
    refine ⟨send_command_msg uri payload ⟨we, fr⟩ rfl, ?_, ?_, ?_⟩
    · intro e he
      simp only at he
      subst he
      rfl
    · intro hnone
      simp only at hnone
      subst hnone
      cases hr : readLoop commandTimeoutSecs fr <;>
        simp [TvConnection.send_command, requestEnvelope, hr]
    · intro hnone j hj
      simp only at hnone
      subst hnone
      simp [TvConnection.send_command, hj]
  · intro bound t rest ht
    constructor <;>
      · simp only [readLoop]
        rw [if_neg (Nat.not_le.mpr ht)]

/-- C8 witness: a concrete send on the connected session allocates id 2,
writes the request envelope, and returns the device's decodable response
as-is. -/
theorem c8_witness :
    connectedBase.ws = some ()
    ∧ (connectedBase.send_command "ssap://system/turnOff" none goodSendEnv).st.msg_id
      = (connectedBase.msg_id + 1) % u32Mod
    ∧ (connectedBase.send_command "ssap://system/turnOff" none goodSendEnv).trace
      = [Effect.cmdWrite (requestEnvelope 2 "ssap://system/turnOff" none),
         Effect.cmdRead]
    ∧ (connectedBase.send_command "ssap://system/turnOff" none goodSendEnv).res
      = .ok socketPathJson :=
  ⟨rfl,
   ((c8_send_command_id_allocation.1 connectedBase "ssap://system/turnOff" none
     goodSendEnv rfl).1),
   ((c8_send_command_id_allocation.1 connectedBase "ssap://system/turnOff" none
     goodSendEnv rfl).2.2.1 rfl),
   ((c8_send_command_id_allocation.1 connectedBase "ssap://system/turnOff" none
     goodSendEnv rfl).2.2.2 rfl socketPathJson rfl)⟩

/-- C8 counterexample: the request-id counter is a u32; in the reachable
state whose counter holds 4294967295 the next send_command call wraps the
counter to 0, so the counter does not increment by exactly one there and
does not grow monotonically over the whole process lifetime. -/
theorem c8_counterexample :
    Reachable (pump (u32Mod - 2))
    ∧ (pump (u32Mod - 2)).msg_id = u32Mod - 1
    ∧ ((pump (u32Mod - 2)).send_command "ssap://audio/volumeUp" none
        goodSendEnv).st.msg_id = 0
    ∧ (pump (u32Mod - 2)).msg_id + 1 ≠ 0 := by
  refine ⟨pump_reachable _, ?_, ?_, ?_⟩
  · rw [pump_msg]
    decide
  · rw [send_command_msg _ none goodSendEnv (pump_ws _), pump_msg]
    decide
  · rw [pump_msg]
    decide

/-
  Hex parsing lemmas for the wake-on-LAN claims.
-/

theorem hexDigit?_lt {c : Char} {d : Nat} (h : hexDigit? c = some d) : d < 16 := by
  unfold hexDigit? at h
  split at h
  · injection h with h
    omega
  · split at h
    · injection h with h
      omega
    · split at h
      · injection h with h
        omega
      · cases h

theorem radixStep_none_digit {c : Char} (hc : hexDigit? c = none)
    (isNeg : Bool) (acc : Option Nat) : radixStep isNeg acc c = none := by
  cases acc <;> simp [radixStep, hc]

theorem radixStep_none_acc (isNeg : Bool) (c : Char) :
    radixStep isNeg none c = none := by
  simp [radixStep]

theorem radixStep_pos {a d : Nat} {c : Char} (hc : hexDigit? c = some d)
    (h1 : a * 16 + d ≤ 255) : radixStep false (some a) c = some (a * 16 + d) := by
  have h2 : ¬ 255 < a * 16 := by omega
  simp [radixStep, hc, h2, h1]

theorem fromStrRadix16u8_pair {a b : Char} {da db : Nat}
    (ha : hexDigit? a = some da) (hb : hexDigit? b = some db) :
    fromStrRadix16u8 [a, b] = some (da * 16 + db) := by
  have hda := hexDigit?_lt ha
  have hdb := hexDigit?_lt hb
  have hap : (a == '+') = false := by
    rw [beq_eq_false_iff_ne]
    intro h
    rw [h, show hexDigit? '+' = none from rfl] at ha
    cases ha
  have ham : (a == '-') = false := by
    rw [beq_eq_false_iff_ne]
    intro h
    rw [h, show hexDigit? '-' = none from rfl] at ha
    cases ha
  simp only [fromStrRadix16u8, hap, ham, Bool.or_self, Bool.false_or,
    Bool.false_eq_true, if_false, List.isEmpty_cons, List.foldl_cons,
    List.foldl_nil]
  rw [radixStep_pos ha (by omega), radixStep_pos hb (by omega)]
  congr 1
  omega

theorem fromStrRadix16u8_pair_fail_right {c : Char} (hc : hexDigit? c = none)
    (a : Char) : fromStrRadix16u8 [a, c] = none := by
  simp only [fromStrRadix16u8]
  cases hsign : (a == '+' || a == '-') <;>
    simp [radixStep_none_digit hc, radixStep_none_acc]

theorem fromStrRadix16u8_pair_fail_left {c : Char} (hc : hexDigit? c = none)
    (hp : c ≠ '+') (hm : c ≠ '-') (b : Char) :
    fromStrRadix16u8 [c, b] = none := by
  simp only [fromStrRadix16u8, beq_eq_false_iff_ne.mpr hp,
    beq_eq_false_iff_ne.mpr hm, Bool.or_self, List.isEmpty_cons,
    List.foldl_cons, List.foldl_nil]
  simp [radixStep_none_digit hc, radixStep_none_acc]

theorem hexDigit?_ascii {c : Char} {d : Nat} (h : hexDigit? c = some d) :
    lenUtf8 c = 1 := by
  have h127 : c.toNat ≤ 127 := by
    unfold hexDigit? at h
    split at h
    · omega
    · split at h
      · omega
      · split at h
        · omega
        · cases h
  unfold lenUtf8
  rw [if_pos h127]

theorem strByteLen_ascii : ∀ (cs : List Char), (∀ c ∈ cs, lenUtf8 c = 1) →
    strByteLen cs = cs.length
  | [], _ => rfl
  | c :: rest, h => by
    have hc : lenUtf8 c = 1 := h c (by simp)
    have hr := strByteLen_ascii rest (fun x hx => h x (by simp [hx]))
    simp only [strByteLen, List.map_cons, List.sum_cons, List.length_cons] at *
    omega

theorem hexDecodePairs_ok : ∀ (cs : List Char), cs.length % 2 = 0 →
    (∀ c ∈ cs, (hexDigit? c).isSome = true) →
    ∃ bs, hexDecodePairs cs = .ok bs ∧ 2 * bs.length = cs.length
  | [], _, _ => ⟨[], rfl, rfl⟩
  | [c], h, _ => by simp at h
  | a :: b :: rest, h, hall => by
    obtain ⟨da, hda⟩ := Option.isSome_iff_exists.mp (hall a (by simp))
    obtain ⟨db, hdb⟩ := Option.isSome_iff_exists.mp (hall b (by simp))
    have hrest : rest.length % 2 = 0 := by
      simp only [List.length_cons] at h
      omega
    obtain ⟨bs, hbs, hlen⟩ := hexDecodePairs_ok rest hrest
      (fun c hc => hall c (by simp [hc]))
    refine ⟨(da * 16 + db) :: bs, ?_, ?_⟩
    · simp [hexDecodePairs, hexDigit?_ascii hda, hexDigit?_ascii hdb,
        fromStrRadix16u8_pair hda hdb, hbs]
    · simp only [List.length_cons]
      omega

theorem hexDecodePairs_len : ∀ {cs : List Char} {bs : List Nat},
    hexDecodePairs cs = .ok bs → 2 * bs.length = strByteLen cs
  | [], bs, h => by
    injection h with h
    subst h
    rfl
  | [c], bs, h => by
    simp only [hexDecodePairs] at h
    split at h
    · cases h
    · cases h
  | c :: d :: rest2, bs, h => by
    simp only [hexDecodePairs] at h
    split at h
    · cases h
    · split at h
      · split at h
        · split at h
          · cases h
          · split at h
            · injection h with h
              subst h
              have hrec := hexDecodePairs_len (by assumption)
              simp only [strByteLen, List.map_cons, List.sum_cons,
                List.length_cons] at *
              omega
            · cases h
            · cases h
        · cases h
      · cases h

theorem hexDecodePairs_badchar : ∀ (cs : List Char),
    (∀ c ∈ cs, lenUtf8 c = 1) → cs.length % 2 = 0 →
    (∃ c ∈ cs, hexDigit? c = none ∧ c ≠ '+' ∧ c ≠ '-') →
    hexDecodePairs cs = .formatErr
  | [] => by
    rintro _ _ ⟨c, hc, _⟩
    cases hc
  | [c] => by
    intro _ h _
    simp at h
  | a :: b :: rest => by
    rintro hascii heven ⟨c, hc, hnone, hp, hm⟩
    have ha1 : lenUtf8 a = 1 := hascii a (by simp)
    have hb1 : lenUtf8 b = 1 := hascii b (by simp)
    rcases List.mem_cons.mp hc with hca | hc2
    · subst hca
      simp [hexDecodePairs, ha1, hb1,
        fromStrRadix16u8_pair_fail_left hnone hp hm b]
    · rcases List.mem_cons.mp hc2 with hcb | hcr
      · subst hcb
        simp [hexDecodePairs, ha1, hb1,
          fromStrRadix16u8_pair_fail_right hnone a]
      · have hrest := hexDecodePairs_badchar rest
          (fun x hx => hascii x (by simp [hx]))
          (by simp only [List.length_cons] at heven; omega)
          ⟨c, hcr, hnone, hp, hm⟩
        cases hf : fromStrRadix16u8 [a, b] with
        | none => simp [hexDecodePairs, ha1, hb1, hf]
        | some v => simp [hexDecodePairs, ha1, hb1, hf, hrest]

theorem length_flatten_replicate {α : Type} (n : Nat) (l : List α) :
    (List.replicate n l).flatten.length = n * l.length := by
  induction n with
  | zero => simp
  | succ n ih =>
    rw [List.replicate_succ, List.flatten_cons, List.length_append, ih,
      Nat.succ_mul]
    exact Nat.add_comm _ _

/-- C5: for every MAC string that strips (colon and dash separators
removed) to exactly 12 hex digits, wake_on_lan parses 6 address bytes and
the first datagram it sends is the magic packet: exactly 102 bytes, 6
bytes of 255 followed by 16 verbatim repetitions of the 6 address
bytes. -/
theorem c5_wake_packet_layout (s : String) (bip : Option String) (env : WolEnv)
    (hlen : (macCleanChars s).length = 12)
    (hhex : ∀ c ∈ macCleanChars s, (hexDigit? c).isSome = true) :
    ∃ bytes, hexDecode (macCleanChars s) = .ok bytes ∧ bytes.length = 6
    ∧ (wake_on_lan s bip env).2.head? = some (WolSend.broadcast (magicPacket bytes))
    ∧ (magicPacket bytes).length = 102
    ∧ magicPacket bytes
      = List.replicate 6 255 ++ (List.replicate 16 bytes).flatten := by
  have hasc : ∀ c ∈ macCleanChars s, lenUtf8 c = 1 := by
    intro c hc
    obtain ⟨d, hd⟩ := Option.isSome_iff_exists.mp (hhex c hc)
    exact hexDigit?_ascii hd
  have hbyte : strByteLen (macCleanChars s) = 12 := by
    rw [strByteLen_ascii _ hasc, hlen]
  obtain ⟨bs, hbs, hl⟩ := hexDecodePairs_ok (macCleanChars s)
    (by rw [hlen]) hhex
  have hb6 : bs.length = 6 := by omega
  have hdec : hexDecode (macCleanChars s) = .ok bs := by
    unfold hexDecode
    rw [if_neg (by rw [hbyte]; decide)]
    exact hbs
  refine ⟨bs, hdec, hb6, ?_, ?_, rfl⟩
  · cases henv : env.primarySendError <;>
      simp [wake_on_lan, hdec, hb6, henv]
  · simp [magicPacket, length_flatten_replicate, hb6]

/-- C5 witness: a standard colon-separated MAC strips to 12 hex digits and
yields the 102-byte magic packet as first datagram. -/
theorem c5_witness :
    (macCleanChars "AA:BB:CC:DD:EE:FF").length = 12
    ∧ (∀ c ∈ macCleanChars "AA:BB:CC:DD:EE:FF", (hexDigit? c).isSome = true)
    ∧ ∃ bytes, hexDecode (macCleanChars "AA:BB:CC:DD:EE:FF") = .ok bytes
      ∧ bytes.length = 6
      ∧ (wake_on_lan "AA:BB:CC:DD:EE:FF" none ⟨none⟩).2.head?
        = some (WolSend.broadcast (magicPacket bytes))
      ∧ (magicPacket bytes).length = 102
      ∧ magicPacket bytes
        = List.replicate 6 255 ++ (List.replicate 16 bytes).flatten :=
  ⟨by decide, by decide,
   c5_wake_packet_layout "AA:BB:CC:DD:EE:FF" none ⟨none⟩ (by decide) (by decide)⟩

/-- C6 (amended): a MAC string whose stripped form is not exactly 12 UTF-8
bytes never sends a packet and never succeeds; it fails with a format
error, unless the 2-byte walk hits a multibyte character straddling a
group boundary, in which case the string slice panics instead of
returning. An all-ASCII stripped string containing a character that is
neither a hex digit nor a plus sign fails fast with the format error and
sends nothing. The claim's universal format-error guarantee fails in two
ways, shown in the counterexample: a plus sign leading a 2-byte group is
accepted as a sign by the per-group integer parser (a packet is sent), and
a straddling multibyte character panics rather than failing with a format
error; even then nothing is sent. -/
theorem c6_malformed_mac_rejected :
    (∀ (s : String) (bip : Option String) (env : WolEnv),
      strByteLen (macCleanChars s) ≠ 12 →
      (wake_on_lan s bip env).2 = []
      ∧ ((wake_on_lan s bip env).1 = .ret (.error "Invalid MAC address")
        ∨ (wake_on_lan s bip env).1 = .ret (.error "Invalid MAC address length")
        ∨ (wake_on_lan s bip env).1 = .panicked))
    ∧ (∀ (s : String) (bip : Option String) (env : WolEnv),
      (∀ c ∈ macCleanChars s, lenUtf8 c = 1) →
      (∃ c ∈ macCleanChars s, hexDigit? c = none ∧ c ≠ '+') →
      (wake_on_lan s bip env).1 = .ret (.error "Invalid MAC address")
      ∧ (wake_on_lan s bip env).2 = [])
    ∧ (∀ (s : String) (bip : Option String) (env : WolEnv),
      hexDecode (macCleanChars s) = .panicked →
      (wake_on_lan s bip env).1 = .panicked ∧ (wake_on_lan s bip env).2 = []) := by
  refine ⟨?_, ?_, ?_⟩
  · intro s bip env hlen
    cases hdec : hexDecode (macCleanChars s) with
    | ok bs =>
      have hpair : hexDecodePairs (macCleanChars s) = .ok bs := by
        unfold hexDecode at hdec
        split at hdec
        · cases hdec
        · exact hdec
      have h2 := hexDecodePairs_len hpair
      have hb6 : bs.length ≠ 6 := by omega
      exact ⟨by simp [wake_on_lan, hdec, hb6],
        Or.inr (Or.inl (by simp [wake_on_lan, hdec, hb6]))⟩
    | formatErr =>
      exact ⟨by simp [wake_on_lan, hdec], Or.inl (by simp [wake_on_lan, hdec])⟩
    | panicked =>
      exact ⟨by simp [wake_on_lan, hdec],
        Or.inr (Or.inr (by simp [wake_on_lan, hdec]))⟩
  · intro s bip env hasc ⟨c, hc, hnone, hplus⟩
    have hminus : c ≠ '-' := by
      intro h
      subst h
      have := (List.mem_filter.mp hc).2
      simp at this
    have hdec : hexDecode (macCleanChars s) = .formatErr := by
      unfold hexDecode
      split
      · rfl
      · next hpar =>
        have hclen : (macCleanChars s).length % 2 = 0 := by
          rw [← strByteLen_ascii _ hasc]
          omega
        exact hexDecodePairs_badchar _ hasc hclen ⟨c, hc, hnone, hplus, hminus⟩
    exact ⟨by simp [wake_on_lan, hdec], by simp [wake_on_lan, hdec]⟩
  · intro s bip env hdec
    exact ⟨by simp [wake_on_lan, hdec], by simp [wake_on_lan, hdec]⟩

/-- C6 witness: a too-short MAC fails with a format error and sends
nothing, a MAC containing the non-hex letter G fails fast the same way,
and a concrete straddling-multibyte input reaches the panic outcome with
nothing sent. -/
theorem c6_witness :
    strByteLen (macCleanChars "AA:BB") ≠ 12
    ∧ (wake_on_lan "AA:BB" none ⟨none⟩).2 = []
    ∧ ((wake_on_lan "AA:BB" none ⟨none⟩).1 = .ret (.error "Invalid MAC address")
      ∨ (wake_on_lan "AA:BB" none ⟨none⟩).1 = .ret (.error "Invalid MAC address length")
      ∨ (wake_on_lan "AA:BB" none ⟨none⟩).1 = .panicked)
    ∧ ((∀ c ∈ macCleanChars "GG:BB:CC:DD:EE:FF", lenUtf8 c = 1)
      ∧ 'G' ∈ macCleanChars "GG:BB:CC:DD:EE:FF" ∧ hexDigit? 'G' = none ∧ 'G' ≠ '+')
    ∧ (wake_on_lan "GG:BB:CC:DD:EE:FF" none ⟨none⟩).1
      = .ret (.error "Invalid MAC address")
    ∧ (wake_on_lan "GG:BB:CC:DD:EE:FF" none ⟨none⟩).2 = []
    ∧ hexDecode (macCleanChars "aàa") = .panicked
    ∧ (wake_on_lan "aàa" none ⟨none⟩).1 = .panicked
    ∧ (wake_on_lan "aàa" none ⟨none⟩).2 = [] :=
  ⟨by decide,
   (c6_malformed_mac_rejected.1 "AA:BB" none ⟨none⟩ (by decide)).1,
   (c6_malformed_mac_rejected.1 "AA:BB" none ⟨none⟩ (by decide)).2,
   ⟨by decide, by decide, rfl, by decide⟩,
   (c6_malformed_mac_rejected.2.1 "GG:BB:CC:DD:EE:FF" none ⟨none⟩ (by decide)
     ⟨'G', by decide, rfl, by decide⟩).1,
   (c6_malformed_mac_rejected.2.1 "GG:BB:CC:DD:EE:FF" none ⟨none⟩ (by decide)
     ⟨'G', by decide, rfl, by decide⟩).2,
   by decide,
   (c6_malformed_mac_rejected.2.2 "aàa" none ⟨none⟩ (by decide)).1,
   (c6_malformed_mac_rejected.2.2 "aàa" none ⟨none⟩ (by decide)).2⟩

/-- C6 counterexample: two refutations of the claim that every malformed
MAC string fails fast with a format error and sends nothing. The string
+1AABBCCDDEE contains the non-hex character plus, yet wake_on_lan accepts
it (the per-group parser reads the plus as a sign), returns success and
sends a packet. The string aàa strips to 4 bytes with the 2-byte
character à straddling the first 2-byte group, so hex::decode panics on
the byte slice instead of returning a format error. -/
theorem c6_counterexample :
    ('+' ∈ macCleanChars "+1AABBCCDDEE" ∧ hexDigit? '+' = none)
    ∧ (wake_on_lan "+1AABBCCDDEE" none ⟨none⟩).1
      = .ret (.ok (CommandResult.ok_with_message "Wake-on-LAN packet sent"))
    ∧ (wake_on_lan "+1AABBCCDDEE" none ⟨none⟩).2
      = [WolSend.broadcast (magicPacket [1, 170, 187, 204, 221, 238])]
    ∧ ('à' ∈ macCleanChars "aàa" ∧ hexDigit? 'à' = none ∧ lenUtf8 'à' = 2)
    ∧ (wake_on_lan "aàa" none ⟨none⟩).1 = .panicked
    ∧ (∀ e : String, (WolOutcome.panicked : WolOutcome) ≠ .ret (.error e)) :=
  ⟨⟨by decide, rfl⟩, rfl, rfl, ⟨by decide, rfl, by decide⟩, rfl,
   fun e h => WolOutcome.noConfusion h⟩
